import Mathlib

/-!
Verification of the copybook layout and pagination engine of the
chinese-calligraphy-generator repository.

The definitions below are a shallow embedding of the JavaScript sources:

* `src/utils/canvas-generator.js` (class CanvasGenerator): constants,
  `calculateA4Layout`, the character-placing loop of `generateCopybook`,
  `generatePracticeCopybook`, `validateText`.
* `src/unnamed/part_002` (class PDFGenerator): `calculateImageDimensions`,
  `generateMultiPagePDF`, the numeric clamping of `validateOptions`.

JavaScript numbers are modelled as follows: integer-valued quantities that
stay far below 2^53 are `Nat`/`Int` (float arithmetic is exact there, and
`Math.floor` of a quotient of such integers agrees with natural division);
the point-unit geometry of the PDF placement is modelled over `Rat`, where
the algebra of the source is exact.  A value that went through `parseInt` /
`parseFloat` is an `Option`: `none` models `NaN` from non-numeric input.
The JavaScript idiom `x || d` yields `d` when `x` is `NaN` or `0` (both
falsy); `jsOrInt` / `jsOrRat` reproduce exactly that.
-/

/-- Grid padding in pixels (`this.padding = 40` in CanvasGenerator). -/
def padding : ℕ := 40

/-- A4 width in pixels: `Math.floor((210 / 25.4) * 300)` = 2480.
Computed exactly as `⌊630000 / 254⌋`; the float computation of the source
rounds the same way (the quotient is not near an integer). -/
def A4_WIDTH_PX : ℕ := 630000 / 254

/-- A4 height in pixels: `Math.floor((297 / 25.4) * 300)` = 3507. -/
def A4_HEIGHT_PX : ℕ := 891000 / 254

/-- The layout record returned by `calculateA4Layout`. -/
structure Layout where
  cellSize : ℕ
  totalWidth : ℕ
  totalHeight : ℕ
  charsPerRow : ℕ
  rowCount : ℕ
deriving DecidableEq, Repr

/-- `CanvasGenerator.calculateA4Layout(charsPerRow, rowCount)`:
cell candidates are `Math.floor(contentWidth / charsPerRow)` and
`Math.floor(contentHeight / rowCount)`; the cell size is their minimum and
the canvas dimensions are recomputed from it plus the padding. -/
def calculateA4Layout (charsPerRow rowCount : ℕ) : Layout :=
  let contentWidth := A4_WIDTH_PX - 2 * padding
  let contentHeight := A4_HEIGHT_PX - 2 * padding
  let cellWidth := contentWidth / charsPerRow
  let cellHeight := contentHeight / rowCount
  let optimalCellSize := min cellWidth cellHeight
  let totalWidth := charsPerRow * optimalCellSize + 2 * padding
  let totalHeight := rowCount * optimalCellSize + 2 * padding
  { cellSize := optimalCellSize
    totalWidth := totalWidth
    totalHeight := totalHeight
    charsPerRow := charsPerRow
    rowCount := rowCount }

/-- Whitespace test used by the model for both the regex `\s` and
`String.prototype.trim` of the source (they agree on the characters the
claims involve). -/
def isWS (c : Char) : Bool := c.isWhitespace

/-- The stream extraction of `generateCopybook` and `generateMultiPagePDF`:
replace every whitespace run by the empty string, split into characters
and filter out blanks — the character stream is the input with every
whitespace character removed. -/
def stripWS (t : List Char) : List Char := t.filter (fun c => ! isWS c)

/-- `String.prototype.trim`: drop whitespace from both ends only. -/
def trimList (t : List Char) : List Char :=
  ((t.dropWhile isWS).reverse.dropWhile isWS).reverse

/-- JavaScript `v || d` on a parsed integer: `NaN` (`none`) and `0` are
falsy and give the default. -/
def jsOrInt (v : Option Int) (d : Int) : Int :=
  match v with
  | none => d
  | some x => if x = 0 then d else x

/-- JavaScript `v || d` on a float option. -/
def jsOrRat (v : Option ℚ) (d : ℚ) : ℚ :=
  match v with
  | none => d
  | some x => if x = 0 then d else x

/-- `Math.max(1, Math.min(20, parseInt(charsPerRow) || d))`, as used in
`generateCopybook` (d = 15) and `validateOptions` (d = 10). -/
def validCharsPerRow (v : Option Int) (d : Int) : ℕ :=
  (max 1 (min 20 (jsOrInt v d))).toNat

/-- `Math.max(1, Math.min(30, parseInt(rowCount) || d))`, as used in
`generateCopybook` (d = 5) and `validateOptions` (d = 15). -/
def validRowCount (v : Option Int) (d : Int) : ℕ :=
  (max 1 (min 30 (jsOrInt v d))).toNat

/-- `validateOptions`: `Math.max(0.1, Math.min(1.0, parseFloat(guideOpacity) || 0.2))`. -/
def validGuideOpacity (v : Option ℚ) : ℚ :=
  max 0.1 (min 1.0 (jsOrRat v 0.2))

/-- `validateOptions`: `Math.max(50, Math.min(500, parseInt(pageBreakAfter) || 150))`. -/
def validPageBreakAfter (v : Option Int) : ℕ :=
  (max 50 (min 500 (jsOrInt v 150))).toNat

/-- The option bag consumed by `generateCopybook`
(`options.practiceMode`, `options.guideOpacity`). -/
structure CopybookOptions where
  practiceMode : Bool
  guideOpacity : Option ℚ
deriving DecidableEq, Repr

/-- Inner loop of `generateCopybook`:
`for (col = 0; col < charsPerRow && charIndex < characters.length; col++) charIndex++`.
The first argument is the remaining column budget. -/
def colsLoop : ℕ → ℕ → ℕ → ℕ
  | 0, idx, _ => idx
  | cols + 1, idx, len => if idx < len then colsLoop cols (idx + 1) len else idx

/-- Outer loop of `generateCopybook`:
`for (row = 0; row < rowCount && charIndex < characters.length; row++) { inner }`.
The second argument is the remaining row budget. -/
def rowsLoop (cols : ℕ) : ℕ → ℕ → ℕ → ℕ
  | 0, idx, _ => idx
  | rows + 1, idx, len =>
    if idx < len then rowsLoop cols rows (colsLoop cols idx len) len else idx

/-- The result record of `generateCopybook`
(`{ canvas, layout, charactersDrawn, totalCharacters, fontFamily }`; the
canvas and font family are drawing-surface state outside this model, and
`opacityUsed` records the `ctx.globalAlpha` value the character loop sets
while drawing — `options.guideOpacity || 0.3`, assigned only inside the
per-character loop body, so it is `none` when practice mode is off or when
no character is drawn and the loop body never runs). -/
structure CopybookResult where
  layout : Layout
  charactersDrawn : ℕ
  totalCharacters : ℕ
  opacityUsed : Option ℚ
deriving DecidableEq, Repr

/-- `CanvasGenerator.generateCopybook(text, fontType, charsPerRow, rowCount, options)`:
clamp the grid counts, compute the layout from them, strip the text into
the character stream and walk the grid row-major. -/
def generateCopybook (text : List Char) (fontType : String)
    (charsPerRow rowCount : Option Int) (options : CopybookOptions) :
    CopybookResult :=
  let _ := fontType
  let c := validCharsPerRow charsPerRow 15
  let r := validRowCount rowCount 5
  let layout := calculateA4Layout c r
  let characters := stripWS text
  let charsDrawn := rowsLoop c r 0 characters.length
  let opacity :=
    if options.practiceMode ∧ 0 < charsDrawn
      then some (jsOrRat options.guideOpacity 0.3) else none
  { layout := layout
    charactersDrawn := charsDrawn
    totalCharacters := characters.length
    opacityUsed := opacity }

/-- `generatePracticeCopybook(text, fontType, charsPerRow, rowCount, guideOpacity)`:
delegates to `generateCopybook` with `practiceMode: true`. -/
def generatePracticeCopybook (text : List Char) (fontType : String)
    (charsPerRow rowCount : Option Int) (guideOpacity : ℚ) : CopybookResult :=
  generateCopybook text fontType charsPerRow rowCount
    { practiceMode := true, guideOpacity := some guideOpacity }

/-- Ceiling division on naturals, modelling `Math.ceil(a / b)` for
nonnegative integer `a` and positive integer `b`. -/
def ceilDiv (a b : ℕ) : ℕ := (a + b - 1) / b

/-- `CanvasGenerator.validateText(text)`: `none` models an absent or
non-string value.  The empty string is falsy in JavaScript, so it takes the
first error branch; otherwise the text is trimmed and the emptiness and the
2000-character cap are checked on the trimmed text. -/
def validateText (text : Option (List Char)) : Except String (List Char) :=
  match text with
  | none => Except.error "Text content is required and must be a string"
  | some t =>
    if t = [] then Except.error "Text content is required and must be a string"
    else
      let cleanText := trimList t
      if cleanText.length = 0 then Except.error "Text content cannot be empty"
      else if 2000 < cleanText.length then
        Except.error "Text content is too long (maximum 2000 characters)"
      else Except.ok cleanText

/-- Discriminator for `Except` results of `validateText`. -/
def exceptOk (e : Except String (List Char)) : Bool :=
  match e with
  | Except.ok _ => true
  | Except.error _ => false

/-- The page loop of `generateMultiPagePDF`: for each page index the slice
`characters.slice(page * pageBreakAfter, min((page + 1) * pageBreakAfter, totalChars))`
is taken, and the loop breaks early on an empty slice.  The third argument
is the number of loop iterations left (`totalPages - page`), the fourth the
running start index (`page * pageBreakAfter`). -/
def pagesAux (s : List Char) (pba : ℕ) : ℕ → ℕ → List (List Char)
  | 0, _ => []
  | k + 1, start =>
    let slice := (s.drop start).take pba
    if slice = [] then [] else slice :: pagesAux s pba k (start + pba)

/-- The list of per-page character slices produced by the loop of
`generateMultiPagePDF` on the whitespace-stripped stream of `text`. -/
def multiPageSlices (text : List Char) (pba : ℕ) : List (List Char) :=
  let characters := stripWS text
  pagesAux characters pba (ceilDiv characters.length pba) 0

/-- `Math.min(rowCount, Math.ceil(charsInPage / charsPerRow))` from
`generateMultiPagePDF`. -/
def actualRowCountFor (rowCount charsInPage charsPerRow : ℕ) : ℕ :=
  min rowCount (ceilDiv charsInPage charsPerRow)

/-- The result record of `generateMultiPagePDF`
(`{ pdf, totalPages, charactersDrawn, totalCharacters }`; the PDF sink is
drawing-surface state outside this model, and `pageResults` keeps the
per-page canvas results the source feeds into it). -/
structure MultiPageResult where
  totalPages : ℕ
  pageResults : List CopybookResult
  charactersDrawn : ℕ
  totalCharacters : ℕ
deriving DecidableEq, Repr

/-- The body of the page loop of `generateMultiPagePDF`: compute
`actualRowCount` for the slice and render it through
`generatePracticeCopybook` or `generateCopybook` (the `canvasResult` of the
source). -/
def renderPage (pageText : List Char) (fontType : String)
    (charsPerRow rowCount : ℕ) (practiceMode : Bool) (guideOpacity : ℚ) :
    CopybookResult :=
  let actualRowCount := actualRowCountFor rowCount pageText.length charsPerRow
  if practiceMode then
    generatePracticeCopybook pageText fontType (some (charsPerRow : Int))
      (some (actualRowCount : Int)) guideOpacity
  else
    generateCopybook pageText fontType (some (charsPerRow : Int))
      (some (actualRowCount : Int)) { practiceMode := false, guideOpacity := none }

/-- `PDFGenerator.generateMultiPagePDF(text, options)`: strip the text,
split it into `ceil(totalChars / pageBreakAfter)` slices, and render each
slice through `renderPage`; `charactersDrawn` accumulates the per-page
counts (`processedChars`).  The numeric options `charsPerRow`, `rowCount`,
`pageBreakAfter` are taken as naturals (the theorems below assume the
documented ranges, under which the float arithmetic of the source is
exactly this natural arithmetic). -/
def generateMultiPagePDF (text : List Char) (fontType : String)
    (charsPerRow rowCount : ℕ) (practiceMode : Bool) (guideOpacity : ℚ)
    (pageBreakAfter : ℕ) : MultiPageResult :=
  let characters := stripWS text
  let totalChars := characters.length
  let totalPages := ceilDiv totalChars pageBreakAfter
  let slices := pagesAux characters pageBreakAfter totalPages 0
  let pageResults := slices.map (fun pageText =>
    renderPage pageText fontType charsPerRow rowCount practiceMode guideOpacity)
  { totalPages := totalPages
    pageResults := pageResults
    charactersDrawn := (pageResults.map CopybookResult.charactersDrawn).sum
    totalCharacters := totalChars }

/-- A4 width in PDF points (`this.A4_WIDTH_POINTS = 595.28`). -/
def A4_WIDTH_POINTS : ℚ := 595.28

/-- A4 height in PDF points (`this.A4_HEIGHT_POINTS = 841.89`). -/
def A4_HEIGHT_POINTS : ℚ := 841.89

/-- `this.margins.left = 40` (PDF points). -/
def marginLeft : ℚ := 40

/-- `this.margins.right = 40` (PDF points). -/
def marginRight : ℚ := 40

/-- `this.margins.top = 40` (PDF points). -/
def marginTop : ℚ := 40

/-- `this.margins.bottom = 40` (PDF points). -/
def marginBottom : ℚ := 40

/-- The record returned by `calculateImageDimensions`. -/
structure ImageDims where
  width : ℚ
  height : ℚ
  scale : ℚ
deriving DecidableEq, Repr

/-- `PDFGenerator.calculateImageDimensions(canvasWidth, canvasHeight)`:
one scale factor `min(availableWidth / w, availableHeight / h)` applied to
both axes. -/
def calculateImageDimensions (canvasWidth canvasHeight : ℚ) : ImageDims :=
  let availableWidth := A4_WIDTH_POINTS - marginLeft - marginRight
  let availableHeight := A4_HEIGHT_POINTS - marginTop - marginBottom
  let scaleX := availableWidth / canvasWidth
  let scaleY := availableHeight / canvasHeight
  let scale := min scaleX scaleY
  { width := canvasWidth * scale
    height := canvasHeight * scale
    scale := scale }

/-- Horizontal placement of a page bitmap in `generateMultiPagePDF` /
`generatePDFFromCanvas`:
`margins.left + (A4_WIDTH_POINTS - margins.left - margins.right - width) / 2`. -/
def imageX (dims : ImageDims) : ℚ :=
  marginLeft + (A4_WIDTH_POINTS - marginLeft - marginRight - dims.width) / 2

/-- Vertical placement of a page bitmap:
`margins.top + (A4_HEIGHT_POINTS - margins.top - margins.bottom - height) / 2`. -/
def imageY (dims : ImageDims) : ℚ :=
  marginTop + (A4_HEIGHT_POINTS - marginTop - marginBottom - dims.height) / 2

/-- A 2002-character text: an `a`, then 2000 interior spaces, then an `a`.
It is 2002 characters after trimming (both ends are `a`) but only 2 after
whitespace-stripping. -/
def longMixedText : List Char :=
  'a' :: (List.replicate 2000 ' ' ++ ['a'])

/-! ## Helper lemmas -/

theorem lt_ceilDiv_iff {p : ℕ} (m k : ℕ) (hp : 0 < p) :
    k < ceilDiv m p ↔ k * p < m := by
  unfold ceilDiv
  rw [Nat.lt_iff_add_one_le, Nat.le_div_iff_mul_le hp, Nat.add_mul, Nat.one_mul]
  omega

theorem le_ceilDiv_mul {p : ℕ} (m : ℕ) (hp : 0 < p) : m ≤ ceilDiv m p * p := by
  rcases Nat.lt_or_ge (ceilDiv m p * p) m with h | h
  · exact absurd ((lt_ceilDiv_iff m (ceilDiv m p) hp).mpr h) (lt_irrefl _)
  · exact h

theorem ceilDiv_pos {p m : ℕ} (hp : 0 < p) (hm : 0 < m) : 0 < ceilDiv m p := by
  have := (lt_ceilDiv_iff m 0 hp).mpr (by omega)
  exact this

theorem colsLoop_eq (cols : ℕ) :
    ∀ (idx len : ℕ), idx ≤ len → colsLoop cols idx len = min (idx + cols) len := by
  induction cols with
  | zero => intro idx len h; simp only [colsLoop]; omega
  | succ cols ih =>
    intro idx len h
    simp only [colsLoop]
    by_cases hlt : idx < len
    · rw [if_pos hlt, ih (idx + 1) len (by omega)]; omega
    · rw [if_neg hlt]; omega

theorem rowsLoop_eq (cols : ℕ) :
    ∀ (rows idx len : ℕ), idx ≤ len →
      rowsLoop cols rows idx len = min (idx + cols * rows) len := by
  intro rows
  induction rows with
  | zero => intro idx len h; simp only [rowsLoop]; omega
  | succ rows ih =>
    intro idx len h
    simp only [rowsLoop]
    by_cases hlt : idx < len
    · rw [if_pos hlt, colsLoop_eq cols idx len h,
        ih (min (idx + cols) len) len (Nat.min_le_right _ _), Nat.mul_succ]
      omega
    · rw [if_neg hlt, Nat.mul_succ]; omega

theorem generateCopybook_drawn (text : List Char) (fontType : String)
    (charsPerRow rowCount : Option Int) (options : CopybookOptions) :
    (generateCopybook text fontType charsPerRow rowCount options).charactersDrawn
      = min (stripWS text).length
          (validCharsPerRow charsPerRow 15 * validRowCount rowCount 5) := by
  simp only [generateCopybook]
  rw [rowsLoop_eq _ _ _ _ (Nat.zero_le _)]
  omega

theorem validCharsPerRow_coe (c : ℕ) (d : Int) (h1 : 1 ≤ c) (h2 : c ≤ 20) :
    validCharsPerRow (some (c : Int)) d = c := by
  have hc : (c : Int) ≠ 0 := by omega
  simp only [validCharsPerRow, jsOrInt, if_neg hc]
  omega

theorem validRowCount_coe (r : ℕ) (d : Int) (h1 : 1 ≤ r) (h2 : r ≤ 30) :
    validRowCount (some (r : Int)) d = r := by
  have hr : (r : Int) ≠ 0 := by omega
  simp only [validRowCount, jsOrInt, if_neg hr]
  omega

theorem pagesAux_flatten (s : List Char) (pba : ℕ) :
    ∀ (k start : ℕ), s.length ≤ start + k * pba →
      (pagesAux s pba k start).flatten = s.drop start := by
  intro k
  induction k with
  | zero =>
    intro start h
    simp only [pagesAux, List.flatten_nil]
    exact (List.drop_eq_nil_iff.mpr (by omega)).symm
  | succ k ih =>
    intro start h
    simp only [pagesAux]
    by_cases hsl : (s.drop start).take pba = []
    · rw [if_pos hsl]
      simp only [List.flatten_nil]
      rcases List.take_eq_nil_iff.mp hsl with h0 | hd
      · subst h0
        exact (List.drop_eq_nil_iff.mpr (by omega)).symm
      · exact hd.symm
    · rw [if_neg hsl]
      simp only [List.flatten_cons]
      rw [ih (start + pba) (by rw [Nat.add_mul, Nat.one_mul] at h; omega)]
      rw [← List.drop_drop, List.take_append_drop]

theorem pagesAux_eq_map (s : List Char) {pba : ℕ} (hp : 0 < pba) :
    ∀ (k start : ℕ), (0 < k → start + (k - 1) * pba < s.length) →
      pagesAux s pba k start
        = (List.range k).map (fun j => (s.drop (start + j * pba)).take pba) := by
  intro k
  induction k with
  | zero => intro start h; simp [pagesAux]
  | succ k ih =>
    intro start h
    have hlast : start + k * pba < s.length := by
      have := h (Nat.succ_pos k)
      simpa using this
    have hslice : ¬ (s.drop start).take pba = [] := by
      intro hc
      rcases List.take_eq_nil_iff.mp hc with h0 | hd
      · omega
      · have := List.drop_eq_nil_iff.mp hd
        omega
    simp only [pagesAux, if_neg hslice]
    rw [List.range_succ_eq_map, List.map_cons, List.map_map]
    congr 1
    · simp
    · rw [ih (start + pba) ?side]
      case side =>
        intro hk
        have hk1 : k - 1 + 1 = k := Nat.succ_pred_eq_of_pos hk
        rw [← hk1, Nat.succ_mul] at hlast
        omega
      apply List.map_congr_left
      intro j _
      simp only [Function.comp]
      have harith : start + pba + j * pba = start + Nat.succ j * pba := by
        rw [Nat.succ_mul]; omega
      rw [harith]

theorem multiPageSlices_eq_map (text : List Char) {pba : ℕ} (hp : 0 < pba) :
    multiPageSlices text pba
      = (List.range (ceilDiv (stripWS text).length pba)).map
          (fun i => ((stripWS text).drop (i * pba)).take pba) := by
  unfold multiPageSlices
  have hcond : 0 < ceilDiv (stripWS text).length pba →
      0 + (ceilDiv (stripWS text).length pba - 1) * pba < (stripWS text).length := by
    intro hk
    have := (lt_ceilDiv_iff (stripWS text).length
      (ceilDiv (stripWS text).length pba - 1) hp).mp (by omega)
    omega
  rw [pagesAux_eq_map (stripWS text) hp _ 0 hcond]
  simp

theorem multiPageSlices_flatten (text : List Char) {pba : ℕ} (hp : 0 < pba) :
    (multiPageSlices text pba).flatten = stripWS text := by
  unfold multiPageSlices
  rw [pagesAux_flatten (stripWS text) pba _ 0
    (by simpa using le_ceilDiv_mul (stripWS text).length hp)]
  simp

theorem multiPageSlices_length (text : List Char) {pba : ℕ} (hp : 0 < pba) :
    (multiPageSlices text pba).length = ceilDiv (stripWS text).length pba := by
  rw [multiPageSlices_eq_map text hp]
  simp

theorem pagesAux_ne_nil (s : List Char) (pba : ℕ) :
    ∀ (k start : ℕ) (sl : List Char), sl ∈ pagesAux s pba k start → sl ≠ [] := by
  intro k
  induction k with
  | zero => intro start sl h; simp [pagesAux] at h
  | succ k ih =>
    intro start sl h
    simp only [pagesAux] at h
    by_cases hsl : (s.drop start).take pba = []
    · rw [if_pos hsl] at h; simp at h
    · rw [if_neg hsl] at h
      rcases List.mem_cons.mp h with rfl | hmem
      · exact hsl
      · exact ih (start + pba) sl hmem

theorem mem_multiPageSlices (text : List Char) {pba : ℕ} (hp : 0 < pba)
    (sl : List Char) (h : sl ∈ multiPageSlices text pba) :
    sl ≠ [] ∧ sl.length ≤ pba ∧ stripWS sl = sl := by
  refine ⟨pagesAux_ne_nil _ _ _ _ _ h, ?_, ?_⟩
  · rw [multiPageSlices_eq_map text hp] at h
    rcases List.mem_map.mp h with ⟨j, _, rfl⟩
    exact List.length_take_le _ _
  · rw [multiPageSlices_eq_map text hp] at h
    rcases List.mem_map.mp h with ⟨j, _, rfl⟩
    have hsub : List.Sublist (((stripWS text).drop (j * pba)).take pba)
        (stripWS text) :=
      (List.take_sublist _ _).trans (List.drop_sublist _ _)
    unfold stripWS
    rw [List.filter_eq_self]
    intro a ha
    have := hsub.subset ha
    unfold stripWS at this
    exact (List.mem_filter.mp this).2

theorem sum_map_add_nat {α : Type} (l : List α) (f g : α → ℕ) :
    (l.map (fun x => f x + g x)).sum = (l.map f).sum + (l.map g).sum := by
  induction l with
  | nil => simp
  | cons a l ih => simp [ih]; omega

theorem generateCopybook_totalCharacters (text : List Char) (fontType : String)
    (charsPerRow rowCount : Option Int) (options : CopybookOptions) :
    (generateCopybook text fontType charsPerRow rowCount options).totalCharacters
      = (stripWS text).length := rfl

theorem generateCopybook_layout (text : List Char) (fontType : String)
    (charsPerRow rowCount : Option Int) (options : CopybookOptions) :
    (generateCopybook text fontType charsPerRow rowCount options).layout
      = calculateA4Layout (validCharsPerRow charsPerRow 15)
          (validRowCount rowCount 5) := rfl

theorem validCharsPerRow_pos (v : Option Int) (d : Int) :
    0 < validCharsPerRow v d := by
  unfold validCharsPerRow
  omega

theorem validRowCount_pos (v : Option Int) (d : Int) :
    0 < validRowCount v d := by
  unfold validRowCount
  omega

theorem generateCopybook_opacityUsed (text : List Char) (fontType : String)
    (charsPerRow rowCount : Option Int) (options : CopybookOptions)
    (htext : stripWS text ≠ []) :
    (generateCopybook text fontType charsPerRow rowCount options).opacityUsed
      = if options.practiceMode
          then some (jsOrRat options.guideOpacity 0.3) else none := by
  have hlen : 0 < (stripWS text).length := List.length_pos.mpr htext
  have hdr : 0 < rowsLoop (validCharsPerRow charsPerRow 15)
      (validRowCount rowCount 5) 0 (stripWS text).length := by
    rw [rowsLoop_eq _ _ _ _ (Nat.zero_le _)]
    have hc := validCharsPerRow_pos charsPerRow 15
    have hr := validRowCount_pos rowCount 5
    have hcr : 0 < validCharsPerRow charsPerRow 15 * validRowCount rowCount 5 :=
      Nat.mul_pos hc hr
    omega
  simp only [generateCopybook]
  by_cases hpm : options.practiceMode
  · rw [if_pos ⟨hpm, hdr⟩, if_pos hpm]
  · rw [if_neg (fun hcon => hpm hcon.1), if_neg hpm]

theorem generateCopybook_opacityUsed_empty (text : List Char)
    (fontType : String) (charsPerRow rowCount : Option Int)
    (options : CopybookOptions) (htext : stripWS text = []) :
    (generateCopybook text fontType charsPerRow rowCount
        options).opacityUsed = none := by
  have hdr : rowsLoop (validCharsPerRow charsPerRow 15)
      (validRowCount rowCount 5) 0 (stripWS text).length = 0 := by
    rw [rowsLoop_eq _ _ _ _ (Nat.zero_le _), htext]
    simp
  simp only [generateCopybook]
  rw [if_neg]
  intro hcon
  rw [hdr] at hcon
  exact Nat.lt_irrefl 0 hcon.2

theorem actualRowCountFor_bounds (r L c : ℕ) (hr1 : 1 ≤ r) (hr2 : r ≤ 30)
    (hc : 1 ≤ c) (hL : 1 ≤ L) :
    1 ≤ actualRowCountFor r L c ∧ actualRowCountFor r L c ≤ 30 := by
  unfold actualRowCountFor
  have := @ceilDiv_pos c L hc hL
  omega

theorem renderPage_drawn (sl : List Char) (fontType : String) (c r : ℕ)
    (practiceMode : Bool) (guideOpacity : ℚ)
    (hc1 : 1 ≤ c) (hc2 : c ≤ 20) (hr1 : 1 ≤ r) (hr2 : r ≤ 30)
    (hsl : sl ≠ []) (hstrip : stripWS sl = sl) :
    (renderPage sl fontType c r practiceMode guideOpacity).charactersDrawn
      = min sl.length (c * actualRowCountFor r sl.length c) := by
  have hL : 1 ≤ sl.length := List.length_pos.mpr hsl
  obtain ⟨ha1, ha2⟩ := actualRowCountFor_bounds r sl.length c hr1 hr2 hc1 hL
  unfold renderPage generatePracticeCopybook
  cases practiceMode <;>
    simp only [if_true, if_false, Bool.false_eq_true, ite_true, ite_false] <;>
    · rw [generateCopybook_drawn, validCharsPerRow_coe c 15 hc1 hc2,
        validRowCount_coe _ 5 ha1 ha2, hstrip]

theorem renderPage_totalCharacters (sl : List Char) (fontType : String)
    (c r : ℕ) (practiceMode : Bool) (guideOpacity : ℚ)
    (hstrip : stripWS sl = sl) :
    (renderPage sl fontType c r practiceMode guideOpacity).totalCharacters
      = sl.length := by
  unfold renderPage generatePracticeCopybook
  cases practiceMode <;>
    simp only [if_true, if_false, Bool.false_eq_true, ite_true, ite_false] <;>
    · rw [generateCopybook_totalCharacters, hstrip]

theorem renderPage_rowCount (sl : List Char) (fontType : String) (c r : ℕ)
    (practiceMode : Bool) (guideOpacity : ℚ)
    (hc1 : 1 ≤ c) (hr1 : 1 ≤ r) (hr2 : r ≤ 30) (hsl : sl ≠ []) :
    (renderPage sl fontType c r practiceMode guideOpacity).layout.rowCount
      = actualRowCountFor r sl.length c := by
  have hL : 1 ≤ sl.length := List.length_pos.mpr hsl
  obtain ⟨ha1, ha2⟩ := actualRowCountFor_bounds r sl.length c hr1 hr2 hc1 hL
  unfold renderPage generatePracticeCopybook
  cases practiceMode <;>
    simp only [if_true, if_false, Bool.false_eq_true, ite_true, ite_false] <;>
    · rw [generateCopybook_layout]
      simp only [calculateA4Layout]
      rw [validRowCount_coe _ 5 ha1 ha2]

theorem multiPage_pageResults (text : List Char) (fontType : String)
    (c r : ℕ) (practiceMode : Bool) (guideOpacity : ℚ) (pba : ℕ) :
    (generateMultiPagePDF text fontType c r practiceMode guideOpacity pba).pageResults
      = (multiPageSlices text pba).map
          (fun sl => renderPage sl fontType c r practiceMode guideOpacity) := rfl

theorem multiPage_totalCharacters (text : List Char) (fontType : String)
    (c r : ℕ) (practiceMode : Bool) (guideOpacity : ℚ) (pba : ℕ) :
    (generateMultiPagePDF text fontType c r practiceMode guideOpacity pba).totalCharacters
      = (stripWS text).length := rfl

theorem multiPage_drawn_sum (text : List Char) (fontType : String)
    (c r : ℕ) (practiceMode : Bool) (guideOpacity : ℚ) (pba : ℕ) :
    (generateMultiPagePDF text fontType c r practiceMode guideOpacity pba).charactersDrawn
      = ((multiPageSlices text pba).map
          (fun sl => (renderPage sl fontType c r practiceMode guideOpacity).charactersDrawn)).sum := by
  have h : (generateMultiPagePDF text fontType c r practiceMode guideOpacity pba).charactersDrawn
      = (((multiPageSlices text pba).map
          (fun sl => renderPage sl fontType c r practiceMode guideOpacity)).map
            CopybookResult.charactersDrawn).sum := rfl
  rw [h, List.map_map]
  rfl

theorem sum_slice_lengths (text : List Char) {pba : ℕ} (hp : 0 < pba) :
    ((multiPageSlices text pba).map (fun sl => sl.length)).sum
      = (stripWS text).length := by
  have h := multiPageSlices_flatten text hp
  have h2 := List.length_flatten (multiPageSlices text pba)
  rw [h] at h2
  exact h2.symm

/-! ## Claim theorems -/

/-- C1, counterexample: at charsPerRow = 1, rowCount = 1 the cell size is
the full content width 2400, and the claimed bound
`cellSize * charsPerRow + 2 * padding ≤ contentWidth` fails (2480 > 2400):
the grid plus padding fits the full A4 page, not the content area. -/
theorem C1_counterexample :
    (calculateA4Layout 1 1).cellSize = 2400
      ∧ (calculateA4Layout 1 1).cellSize
          = min ((A4_WIDTH_PX - 2 * padding) / 1) ((A4_HEIGHT_PX - 2 * padding) / 1)
      ∧ ¬ ((calculateA4Layout 1 1).cellSize * 1 + 2 * padding
            ≤ A4_WIDTH_PX - 2 * padding) := by
  decide

/-- C1, amended: for charsPerRow in [1,20] and rowCount in [1,30],
`calculateA4Layout` returns
`cellSize = min(floor(contentWidth / charsPerRow), floor(contentHeight / rowCount))`
with contentWidth/contentHeight the A4 pixel dimensions minus 2*padding;
this cellSize satisfies `cellSize * charsPerRow + 2 * padding ≤ A4_WIDTH_PX`
and `cellSize * rowCount + 2 * padding ≤ A4_HEIGHT_PX` (the grid plus
padding fits the full A4 page, not the padded content area as the claim
stated), increasing cellSize by 1 violates at least one of these bounds,
and `totalWidth = charsPerRow * cellSize + 2 * padding`,
`totalHeight = rowCount * cellSize + 2 * padding`. -/
theorem C1_amended_layout (c r : ℕ) (hc1 : 1 ≤ c) (hc2 : c ≤ 20)
    (hr1 : 1 ≤ r) (hr2 : r ≤ 30) :
    (calculateA4Layout c r).cellSize
        = min ((A4_WIDTH_PX - 2 * padding) / c) ((A4_HEIGHT_PX - 2 * padding) / r)
      ∧ (calculateA4Layout c r).cellSize * c + 2 * padding ≤ A4_WIDTH_PX
      ∧ (calculateA4Layout c r).cellSize * r + 2 * padding ≤ A4_HEIGHT_PX
      ∧ (A4_WIDTH_PX < ((calculateA4Layout c r).cellSize + 1) * c + 2 * padding
          ∨ A4_HEIGHT_PX < ((calculateA4Layout c r).cellSize + 1) * r + 2 * padding)
      ∧ (calculateA4Layout c r).totalWidth
          = c * (calculateA4Layout c r).cellSize + 2 * padding
      ∧ (calculateA4Layout c r).totalHeight
          = r * (calculateA4Layout c r).cellSize + 2 * padding := by
  have hc : 0 < c := hc1
  have hr : 0 < r := hr1
  have hW : 2 * padding ≤ A4_WIDTH_PX := by decide
  have hH : 2 * padding ≤ A4_HEIGHT_PX := by decide
  refine ⟨rfl, ?_, ?_, ?_, rfl, rfl⟩
  · simp only [calculateA4Layout]
    have h1 : min ((A4_WIDTH_PX - 2 * padding) / c) ((A4_HEIGHT_PX - 2 * padding) / r) * c
        ≤ A4_WIDTH_PX - 2 * padding :=
      le_trans (Nat.mul_le_mul_right c (Nat.min_le_left _ _))
        (Nat.div_mul_le_self _ c)
    omega
  · simp only [calculateA4Layout]
    have h1 : min ((A4_WIDTH_PX - 2 * padding) / c) ((A4_HEIGHT_PX - 2 * padding) / r) * r
        ≤ A4_HEIGHT_PX - 2 * padding :=
      le_trans (Nat.mul_le_mul_right r (Nat.min_le_right _ _))
        (Nat.div_mul_le_self _ r)
    omega
  · simp only [calculateA4Layout]
    rcases Nat.le_total ((A4_WIDTH_PX - 2 * padding) / c)
        ((A4_HEIGHT_PX - 2 * padding) / r) with hm | hm
    · left
      rw [Nat.min_eq_left hm]
      have h2 : A4_WIDTH_PX - 2 * padding
          < ((A4_WIDTH_PX - 2 * padding) / c + 1) * c :=
        (Nat.div_lt_iff_lt_mul hc).mp (Nat.lt_succ_self _)
      omega
    · right
      rw [Nat.min_eq_right hm]
      have h2 : A4_HEIGHT_PX - 2 * padding
          < ((A4_HEIGHT_PX - 2 * padding) / r + 1) * r :=
        (Nat.div_lt_iff_lt_mul hr).mp (Nat.lt_succ_self _)
      omega

/-- C1, witness: the amended layout theorem instantiated at
charsPerRow = 10, rowCount = 10. -/
theorem C1_witness :
    ((1 : ℕ) ≤ 10 ∧ (10 : ℕ) ≤ 20 ∧ (10 : ℕ) ≤ 30)
      ∧ ((calculateA4Layout 10 10).cellSize
            = min ((A4_WIDTH_PX - 2 * padding) / 10) ((A4_HEIGHT_PX - 2 * padding) / 10)
          ∧ (calculateA4Layout 10 10).cellSize * 10 + 2 * padding ≤ A4_WIDTH_PX
          ∧ (calculateA4Layout 10 10).cellSize * 10 + 2 * padding ≤ A4_HEIGHT_PX
          ∧ (A4_WIDTH_PX < ((calculateA4Layout 10 10).cellSize + 1) * 10 + 2 * padding
              ∨ A4_HEIGHT_PX < ((calculateA4Layout 10 10).cellSize + 1) * 10 + 2 * padding)
          ∧ (calculateA4Layout 10 10).totalWidth
              = 10 * (calculateA4Layout 10 10).cellSize + 2 * padding
          ∧ (calculateA4Layout 10 10).totalHeight
              = 10 * (calculateA4Layout 10 10).cellSize + 2 * padding) :=
  ⟨by decide,
    C1_amended_layout 10 10 (by decide) (by decide) (by decide) (by decide)⟩

/-- C4, counterexample: `parseInt(charsPerRow) || default` treats 0 as
falsy, so charsPerRow = 0 yields the call-site default (15 in
`generateCopybook`, 10 in `validateOptions`), not the nearest clamp 1 that
the claim states. -/
theorem C4_counterexample :
    validCharsPerRow (some 0) 15 = 15
      ∧ validCharsPerRow (some 0) 15 ≠ 1
      ∧ validCharsPerRow (some 0) 10 = 10
      ∧ (generateCopybook [] "serif" (some 0) (some 5)
          { practiceMode := false, guideOpacity := none }).layout.charsPerRow = 15
      ∧ (generateCopybook [] "serif" (some 1) (some 5)
          { practiceMode := false, guideOpacity := none }).layout.charsPerRow = 1 := by
  decide

/-- C4, amended: charsPerRow = 21 clamps to 20 and non-numeric charsPerRow
takes the call-site default, but charsPerRow = 0 also takes the call-site
default (0 is falsy under `||`) rather than clamping to 1; negative values
clamp to 1, values above 20 clamp to 20, and in every case the value used
lies in [1,20] (rowCount analogously in [1,30]) before layout, with no
input ever failing. -/
theorem C4_clamping (d e x y : Int) (hd1 : 1 ≤ d) (hd2 : d ≤ 20)
    (he1 : 1 ≤ e) (he2 : e ≤ 30) :
    validCharsPerRow none d = d.toNat
      ∧ validCharsPerRow (some 0) d = d.toNat
      ∧ validCharsPerRow (some 21) d = 20
      ∧ (1 ≤ x → x ≤ 20 → validCharsPerRow (some x) d = x.toNat)
      ∧ (x < 0 → validCharsPerRow (some x) d = 1)
      ∧ (21 ≤ x → validCharsPerRow (some x) d = 20)
      ∧ 1 ≤ validCharsPerRow (some x) d
      ∧ validCharsPerRow (some x) d ≤ 20
      ∧ validRowCount none e = e.toNat
      ∧ validRowCount (some 0) e = e.toNat
      ∧ validRowCount (some 31) e = 30
      ∧ (1 ≤ y → y ≤ 30 → validRowCount (some y) e = y.toNat)
      ∧ 1 ≤ validRowCount (some y) e
      ∧ validRowCount (some y) e ≤ 30 := by
  refine ⟨?_, ?_, ?_, ?_, ?_, ?_, ?_, ?_, ?_, ?_, ?_, ?_, ?_, ?_⟩ <;>
    · intros
      simp only [validCharsPerRow, validRowCount, jsOrInt]
      first
      | omega
      | (split_ifs <;> omega)

/-- C4, witness: the amended clamping theorem instantiated at
defaults 15 and 5 and inputs 7 and 9. -/
theorem C4_witness :
    ((1 : Int) ≤ 15 ∧ (15 : Int) ≤ 20 ∧ (1 : Int) ≤ 5 ∧ (5 : Int) ≤ 30)
      ∧ (validCharsPerRow none 15 = (15 : Int).toNat
          ∧ validCharsPerRow (some 0) 15 = (15 : Int).toNat
          ∧ validCharsPerRow (some 21) 15 = 20
          ∧ ((1 : Int) ≤ 7 → (7 : Int) ≤ 20 → validCharsPerRow (some 7) 15 = (7 : Int).toNat)
          ∧ ((7 : Int) < 0 → validCharsPerRow (some 7) 15 = 1)
          ∧ ((21 : Int) ≤ 7 → validCharsPerRow (some 7) 15 = 20)
          ∧ 1 ≤ validCharsPerRow (some 7) 15
          ∧ validCharsPerRow (some 7) 15 ≤ 20
          ∧ validRowCount none 5 = (5 : Int).toNat
          ∧ validRowCount (some 0) 5 = (5 : Int).toNat
          ∧ validRowCount (some 31) 5 = 30
          ∧ ((1 : Int) ≤ 9 → (9 : Int) ≤ 30 → validRowCount (some 9) 5 = (9 : Int).toNat)
          ∧ 1 ≤ validRowCount (some 9) 5
          ∧ validRowCount (some 9) 5 ≤ 30) :=
  ⟨by decide, C4_clamping 15 5 7 9 (by decide) (by decide) (by decide) (by decide)⟩

/-- C6: the character placer walks the grid row-major and stops when the
grid or the stream is exhausted, so `generateCopybook` draws exactly
`min(stream length, charsPerRow * rowCount)` characters; an empty
whitespace-stripped stream yields count 0 and no error. -/
theorem C6_character_placer (text : List Char) (fontType : String)
    (options : CopybookOptions) (c r : ℕ) (hc1 : 1 ≤ c) (hc2 : c ≤ 20)
    (hr1 : 1 ≤ r) (hr2 : r ≤ 30) :
    (generateCopybook text fontType (some (c : Int)) (some (r : Int))
        options).charactersDrawn
        = min (stripWS text).length (c * r)
      ∧ (stripWS text = [] →
          (generateCopybook text fontType (some (c : Int)) (some (r : Int))
            options).charactersDrawn = 0) := by
  have h1 := generateCopybook_drawn text fontType (some (c : Int)) (some (r : Int)) options
  rw [validCharsPerRow_coe c 15 hc1 hc2, validRowCount_coe r 5 hr1 hr2] at h1
  refine ⟨h1, ?_⟩
  intro he
  rw [h1, he]
  simp

/-- C6, witness: four characters on a 10 by 10 grid draw all four, and the
empty text draws zero. -/
theorem C6_witness :
    ((1 : ℕ) ≤ 10 ∧ (10 : ℕ) ≤ 20 ∧ (10 : ℕ) ≤ 30)
      ∧ ((generateCopybook ['w', 'x', 'y', 'z'] "serif" (some (10 : ℕ))
            (some (10 : ℕ)) { practiceMode := false, guideOpacity := none }).charactersDrawn
            = min (stripWS ['w', 'x', 'y', 'z']).length (10 * 10)
          ∧ (stripWS ['w', 'x', 'y', 'z'] = [] →
              (generateCopybook ['w', 'x', 'y', 'z'] "serif" (some (10 : ℕ))
                (some (10 : ℕ)) { practiceMode := false, guideOpacity := none }).charactersDrawn
                = 0)) :=
  ⟨by decide,
    C6_character_placer ['w', 'x', 'y', 'z'] "serif"
      { practiceMode := false, guideOpacity := none } 10 10
      (by decide) (by decide) (by decide) (by decide)⟩

/-- C10: the layout record returned by `generateCopybook` is computed from
the clamped grid counts alone, before the text is tokenized, so it is
independent of the text content. -/
theorem C10_layout_text_independence (t1 t2 : List Char) (fontType : String)
    (charsPerRow rowCount : Option Int) (options : CopybookOptions) :
    (generateCopybook t1 fontType charsPerRow rowCount options).layout
      = (generateCopybook t2 fontType charsPerRow rowCount options).layout := rfl

/-- C2: multi-page generation produces `ceil(n / charsPerPage)` pages,
page i receives exactly the characters
`[i * charsPerPage, min((i + 1) * charsPerPage, n))` of the
whitespace-stripped stream (the take/drop slice below), and concatenating
all page slices in order reproduces the stream exactly. -/
theorem C2_pagination (text : List Char) (fontType : String) (c r : ℕ)
    (practiceMode : Bool) (guideOpacity : ℚ) (pba : ℕ) (hp : 0 < pba) :
    (generateMultiPagePDF text fontType c r practiceMode guideOpacity pba).totalPages
        = ceilDiv (stripWS text).length pba
      ∧ (generateMultiPagePDF text fontType c r practiceMode guideOpacity
            pba).totalPages
          = (multiPageSlices text pba).length
      ∧ multiPageSlices text pba
          = (List.range (ceilDiv (stripWS text).length pba)).map
              (fun i => ((stripWS text).drop (i * pba)).take pba)
      ∧ (multiPageSlices text pba).flatten = stripWS text :=
  ⟨rfl, (multiPageSlices_length text hp).symm,
    multiPageSlices_eq_map text hp, multiPageSlices_flatten text hp⟩

/-- C2, witness: a five-character stream with two characters per page
splits into three slices that concatenate back to the stream. -/
theorem C2_witness :
    0 < 2
      ∧ ((generateMultiPagePDF ['a', 'b', 'c', 'd', 'e'] "serif" 10 15 false
            (1/5) 2).totalPages
          = ceilDiv (stripWS ['a', 'b', 'c', 'd', 'e']).length 2
        ∧ (generateMultiPagePDF ['a', 'b', 'c', 'd', 'e'] "serif" 10 15 false
            (1/5) 2).totalPages
          = (multiPageSlices ['a', 'b', 'c', 'd', 'e'] 2).length
        ∧ multiPageSlices ['a', 'b', 'c', 'd', 'e'] 2
          = (List.range (ceilDiv (stripWS ['a', 'b', 'c', 'd', 'e']).length 2)).map
              (fun i => ((stripWS ['a', 'b', 'c', 'd', 'e']).drop (i * 2)).take 2)
        ∧ (multiPageSlices ['a', 'b', 'c', 'd', 'e'] 2).flatten
          = stripWS ['a', 'b', 'c', 'd', 'e']) :=
  ⟨by decide,
    C2_pagination ['a', 'b', 'c', 'd', 'e'] "serif" 10 15 false (1/5) 2
      (by decide)⟩

/-- C7: for every page slice in multi-page generation the row count
actually used for the grid (the rowCount recorded in the page layout after
clamping) is `min(requestedRowCount, ceil(sliceLength / charsPerRow))`;
slices needing at least the requested rows use the full requested row
count, while a shorter slice shrinks to `ceil(sliceLength / charsPerRow)`
rows, which are exactly enough: they hold the slice and one row fewer
would not. -/
theorem C7_actual_row_count (text : List Char) (fontType : String)
    (c r : ℕ) (practiceMode : Bool) (guideOpacity : ℚ) (pba : ℕ)
    (hc1 : 1 ≤ c) (hc2 : c ≤ 20) (hr1 : 1 ≤ r) (hr2 : r ≤ 30) (hp : 0 < pba) :
    ((generateMultiPagePDF text fontType c r practiceMode guideOpacity
          pba).pageResults.map (fun p => p.layout.rowCount)
        = (multiPageSlices text pba).map
            (fun sl => min r (ceilDiv sl.length c)))
      ∧ (∀ sl ∈ multiPageSlices text pba, sl ≠ [])
      ∧ (∀ sl ∈ multiPageSlices text pba,
          r ≤ ceilDiv sl.length c → min r (ceilDiv sl.length c) = r)
      ∧ (∀ sl ∈ multiPageSlices text pba,
          ceilDiv sl.length c ≤ r →
            min r (ceilDiv sl.length c) = ceilDiv sl.length c
              ∧ sl.length ≤ c * ceilDiv sl.length c
              ∧ c * (ceilDiv sl.length c - 1) < sl.length) := by
  refine ⟨?_, ?_, ?_, ?_⟩
  · rw [multiPage_pageResults, List.map_map]
    apply List.map_congr_left
    intro sl hsl
    obtain ⟨hne, _, _⟩ := mem_multiPageSlices text hp sl hsl
    simp only [Function.comp]
    rw [renderPage_rowCount sl fontType c r practiceMode guideOpacity hc1 hr1 hr2 hne]
    rfl
  · intro sl hsl
    exact (mem_multiPageSlices text hp sl hsl).1
  · intro sl _ h
    exact Nat.min_eq_left h
  · intro sl hsl h
    obtain ⟨hne, _, _⟩ := mem_multiPageSlices text hp sl hsl
    have hL : 0 < sl.length := List.length_pos.mpr hne
    refine ⟨Nat.min_eq_right h, ?_, ?_⟩
    · rw [Nat.mul_comm]
      exact le_ceilDiv_mul sl.length hc1
    · have hpos : 0 < ceilDiv sl.length c := ceilDiv_pos hc1 hL
      have := (lt_ceilDiv_iff sl.length (ceilDiv sl.length c - 1) hc1).mp (by omega)
      rw [Nat.mul_comm]
      exact this

/-- C7, witness: five characters, two per row, four per page: the first
slice uses rows min(3, 2) = 2 and the last min(3, 1) = 1. -/
theorem C7_witness :
    ((1 : ℕ) ≤ 2 ∧ (2 : ℕ) ≤ 20 ∧ (1 : ℕ) ≤ 3 ∧ (3 : ℕ) ≤ 30 ∧ (0 : ℕ) < 4)
      ∧ (((generateMultiPagePDF ['a', 'b', 'c', 'd', 'e'] "serif" 2 3 false
              (1/5) 4).pageResults.map (fun p => p.layout.rowCount)
            = (multiPageSlices ['a', 'b', 'c', 'd', 'e'] 4).map
                (fun sl => min 3 (ceilDiv sl.length 2)))
          ∧ (∀ sl ∈ multiPageSlices ['a', 'b', 'c', 'd', 'e'] 4, sl ≠ [])
          ∧ (∀ sl ∈ multiPageSlices ['a', 'b', 'c', 'd', 'e'] 4,
              3 ≤ ceilDiv sl.length 2 → min 3 (ceilDiv sl.length 2) = 3)
          ∧ (∀ sl ∈ multiPageSlices ['a', 'b', 'c', 'd', 'e'] 4,
              ceilDiv sl.length 2 ≤ 3 →
                min 3 (ceilDiv sl.length 2) = ceilDiv sl.length 2
                  ∧ sl.length ≤ 2 * ceilDiv sl.length 2
                  ∧ 2 * (ceilDiv sl.length 2 - 1) < sl.length)) :=
  ⟨by decide,
    C7_actual_row_count ['a', 'b', 'c', 'd', 'e'] "serif" 2 3 false (1/5) 4
      (by decide) (by decide) (by decide) (by decide) (by decide)⟩

/-- C3, counterexample: with charsPerRow = 2, rowCount = 3,
charsPerPage = 7 and an 8-character stream, the total grid capacity is
2 * 3 * 2 = 12 ≥ 8, yet only 7 characters are drawn: the first page slice
has 7 characters but its grid holds only 6, so one character is silently
truncated even though overall capacity suffices. -/
theorem C3_counterexample :
    (generateMultiPagePDF (List.replicate 8 'a') "serif" 2 3 false (1/5)
        7).totalCharacters = 8
      ∧ (generateMultiPagePDF (List.replicate 8 'a') "serif" 2 3 false (1/5)
          7).totalPages = 2
      ∧ (generateMultiPagePDF (List.replicate 8 'a') "serif" 2 3 false (1/5)
            7).totalCharacters
          ≤ 2 * 3 * (generateMultiPagePDF (List.replicate 8 'a') "serif" 2 3
              false (1/5) 7).totalPages
      ∧ (generateMultiPagePDF (List.replicate 8 'a') "serif" 2 3 false (1/5)
          7).charactersDrawn = 7
      ∧ (generateMultiPagePDF (List.replicate 8 'a') "serif" 2 3 false (1/5)
            7).charactersDrawn
          ≠ (generateMultiPagePDF (List.replicate 8 'a') "serif" 2 3 false
              (1/5) 7).totalCharacters := by
  decide

/-- C3, amended: character conservation holds in both paths — characters
drawn plus characters truncated equals the whitespace-stripped stream
length.  In single-page `generateCopybook`, grid capacity
charsPerRow * rowCount ≥ stream length implies all characters are drawn.
In multi-page `generateMultiPagePDF` (which sums per-page charactersDrawn),
the sufficient condition is charsPerPage ≤ charsPerRow * rowCount (the
grid of each page holds its full slice); total capacity
charsPerRow * rowCount * totalPages ≥ stream length alone does not
suffice, as the counterexample shows. -/
theorem C3_conservation (text : List Char) (fontType : String)
    (options : CopybookOptions) (c r pba : ℕ) (practiceMode : Bool)
    (guideOpacity : ℚ) (hc1 : 1 ≤ c) (hc2 : c ≤ 20) (hr1 : 1 ≤ r)
    (hr2 : r ≤ 30) (hp : 1 ≤ pba) :
    ((generateCopybook text fontType (some (c : Int)) (some (r : Int))
          options).charactersDrawn
        + ((generateCopybook text fontType (some (c : Int)) (some (r : Int))
              options).totalCharacters
            - (generateCopybook text fontType (some (c : Int)) (some (r : Int))
                options).charactersDrawn)
        = (generateCopybook text fontType (some (c : Int)) (some (r : Int))
            options).totalCharacters)
      ∧ ((stripWS text).length ≤ c * r →
          (generateCopybook text fontType (some (c : Int)) (some (r : Int))
              options).charactersDrawn
            = (generateCopybook text fontType (some (c : Int)) (some (r : Int))
                options).totalCharacters)
      ∧ ((generateMultiPagePDF text fontType c r practiceMode guideOpacity
            pba).charactersDrawn
          + ((generateMultiPagePDF text fontType c r practiceMode
                guideOpacity pba).pageResults.map
              (fun p => p.totalCharacters - p.charactersDrawn)).sum
          = (generateMultiPagePDF text fontType c r practiceMode guideOpacity
              pba).totalCharacters)
      ∧ (pba ≤ c * r →
          (generateMultiPagePDF text fontType c r practiceMode guideOpacity
              pba).charactersDrawn
            = (generateMultiPagePDF text fontType c r practiceMode
                guideOpacity pba).totalCharacters) := by
  have hdrawn := generateCopybook_drawn text fontType (some (c : Int))
    (some (r : Int)) options
  rw [validCharsPerRow_coe c 15 hc1 hc2, validRowCount_coe r 5 hr1 hr2] at hdrawn
  have htot := generateCopybook_totalCharacters text fontType (some (c : Int))
    (some (r : Int)) options
  refine ⟨?_, ?_, ?_, ?_⟩
  · rw [hdrawn, htot]
    have := Nat.min_le_left (stripWS text).length (c * r)
    omega
  · intro h
    rw [hdrawn, htot]
    exact Nat.min_eq_left h
  · rw [multiPage_drawn_sum, multiPage_totalCharacters, multiPage_pageResults,
      List.map_map]
    rw [← sum_map_add_nat]
    have hcongr : (multiPageSlices text pba).map
        (fun sl => (renderPage sl fontType c r practiceMode guideOpacity).charactersDrawn
          + ((fun p => p.totalCharacters - p.charactersDrawn) ∘
              (fun sl => renderPage sl fontType c r practiceMode guideOpacity)) sl)
        = (multiPageSlices text pba).map (fun sl => sl.length) := by
      apply List.map_congr_left
      intro sl hsl
      obtain ⟨hne, _, hstrip⟩ := mem_multiPageSlices text hp sl hsl
      simp only [Function.comp]
      rw [renderPage_drawn sl fontType c r practiceMode guideOpacity
          hc1 hc2 hr1 hr2 hne hstrip,
        renderPage_totalCharacters sl fontType c r practiceMode guideOpacity
          hstrip]
      have := Nat.min_le_left sl.length
        (c * actualRowCountFor r sl.length c)
      omega
    rw [hcongr, sum_slice_lengths text hp]
  · intro hcap
    rw [multiPage_drawn_sum, multiPage_totalCharacters]
    have hcongr : (multiPageSlices text pba).map
        (fun sl => (renderPage sl fontType c r practiceMode guideOpacity).charactersDrawn)
        = (multiPageSlices text pba).map (fun sl => sl.length) := by
      apply List.map_congr_left
      intro sl hsl
      obtain ⟨hne, hlen, hstrip⟩ := mem_multiPageSlices text hp sl hsl
      rw [renderPage_drawn sl fontType c r practiceMode guideOpacity
          hc1 hc2 hr1 hr2 hne hstrip]
      have hfit : sl.length ≤ c * actualRowCountFor r sl.length c := by
        unfold actualRowCountFor
        rcases Nat.le_total r (ceilDiv sl.length c) with hm | hm
        · rw [Nat.min_eq_left hm]
          omega
        · rw [Nat.min_eq_right hm, Nat.mul_comm]
          exact le_ceilDiv_mul sl.length hc1
      exact Nat.min_eq_left hfit
    rw [hcongr, sum_slice_lengths text hp]

/-- C3, witness: the conservation theorem instantiated on a four-character
text with charsPerRow = 10, rowCount = 10 and charsPerPage = 50 ≤ 100. -/
theorem C3_witness :
    ((1 : ℕ) ≤ 10 ∧ (10 : ℕ) ≤ 20 ∧ (10 : ℕ) ≤ 30 ∧ (1 : ℕ) ≤ 50)
      ∧ (((generateCopybook ['a', 'b', 'c', 'd'] "serif" (some (10 : ℕ))
              (some (10 : ℕ)) { practiceMode := false, guideOpacity := none }).charactersDrawn
            + ((generateCopybook ['a', 'b', 'c', 'd'] "serif" (some (10 : ℕ))
                  (some (10 : ℕ)) { practiceMode := false, guideOpacity := none }).totalCharacters
                - (generateCopybook ['a', 'b', 'c', 'd'] "serif" (some (10 : ℕ))
                    (some (10 : ℕ)) { practiceMode := false, guideOpacity := none }).charactersDrawn)
            = (generateCopybook ['a', 'b', 'c', 'd'] "serif" (some (10 : ℕ))
                (some (10 : ℕ)) { practiceMode := false, guideOpacity := none }).totalCharacters)
          ∧ ((stripWS ['a', 'b', 'c', 'd']).length ≤ 10 * 10 →
              (generateCopybook ['a', 'b', 'c', 'd'] "serif" (some (10 : ℕ))
                  (some (10 : ℕ)) { practiceMode := false, guideOpacity := none }).charactersDrawn
                = (generateCopybook ['a', 'b', 'c', 'd'] "serif" (some (10 : ℕ))
                    (some (10 : ℕ)) { practiceMode := false, guideOpacity := none }).totalCharacters)
          ∧ ((generateMultiPagePDF ['a', 'b', 'c', 'd'] "serif" 10 10 false
                (1/5) 50).charactersDrawn
              + ((generateMultiPagePDF ['a', 'b', 'c', 'd'] "serif" 10 10
                    false (1/5) 50).pageResults.map
                  (fun p => p.totalCharacters - p.charactersDrawn)).sum
              = (generateMultiPagePDF ['a', 'b', 'c', 'd'] "serif" 10 10 false
                  (1/5) 50).totalCharacters)
          ∧ (50 ≤ 10 * 10 →
              (generateMultiPagePDF ['a', 'b', 'c', 'd'] "serif" 10 10 false
                  (1/5) 50).charactersDrawn
                = (generateMultiPagePDF ['a', 'b', 'c', 'd'] "serif" 10 10
                    false (1/5) 50).totalCharacters)) :=
  ⟨by decide,
    C3_conservation ['a', 'b', 'c', 'd'] "serif"
      { practiceMode := false, guideOpacity := none } 10 10 50 false (1/5)
      (by decide) (by decide) (by decide) (by decide) (by decide)⟩

theorem filter_replicate_space (n : ℕ) :
    (List.replicate n ' ').filter (fun c => ! isWS c) = [] := by
  induction n with
  | zero => rfl
  | succ n ih => rw [List.replicate_succ, List.filter_cons, if_neg (by decide), ih]

theorem stripWS_longMixedText : stripWS longMixedText = ['a', 'a'] := by
  unfold stripWS longMixedText
  rw [List.filter_cons, if_pos (by decide), List.filter_append,
    filter_replicate_space]
  rfl

theorem longMixedText_length : longMixedText.length = 2002 := by
  unfold longMixedText
  rw [List.length_cons, List.length_append, List.length_replicate]
  decide

theorem trimList_longMixedText : trimList longMixedText = longMixedText := by
  have h1 : longMixedText.dropWhile isWS = longMixedText := by
    unfold longMixedText
    rw [List.dropWhile_cons, if_neg (by decide)]
  have hrev : longMixedText.reverse
      = 'a' :: (List.replicate 2000 ' ' ++ ['a']) := by
    unfold longMixedText
    rw [List.reverse_cons, List.reverse_append, List.reverse_replicate]
    rfl
  have h2 : longMixedText.reverse.dropWhile isWS = longMixedText.reverse := by
    rw [hrev, List.dropWhile_cons, if_neg (by decide)]
  unfold trimList
  rw [h1, h2, List.reverse_reverse]

/-- C5, counterexample: `validateText` measures the 2000-character cap on
the trimmed text (interior whitespace counts), not on the
whitespace-stripped text: `longMixedText` is 2002 characters with only 2
left after whitespace-stripping, yet it is rejected, so the claimed iff
fails. -/
theorem C5_counterexample :
    exceptOk (validateText (some longMixedText)) = false
      ∧ longMixedText ≠ []
      ∧ trimList longMixedText ≠ []
      ∧ (stripWS longMixedText).length = 2
      ∧ (stripWS longMixedText).length ≤ 2000 := by
  have hne : longMixedText ≠ [] := by
    unfold longMixedText
    exact List.cons_ne_nil _ _
  refine ⟨?_, hne, ?_, ?_, ?_⟩
  · simp only [validateText, exceptOk]
    rw [if_neg hne, trimList_longMixedText, longMixedText_length,
      if_neg (by omega : ¬ (2002 : ℕ) = 0), if_pos (by omega : (2000 : ℕ) < 2002)]
  · rw [trimList_longMixedText]
    exact hne
  · rw [stripWS_longMixedText]
    decide
  · rw [stripWS_longMixedText]
    decide

/-- C5, amended: `validateText` fails exactly when the input is absent or
non-string, or the text is empty after trimming, or the trimmed text
(leading and trailing whitespace removed, interior whitespace kept)
exceeds 2000 characters; on success the trimmed text is returned for
rendering, and on failure no output is produced. -/
theorem C5_validate_text (t : List Char) :
    (exceptOk (validateText (some t)) = true
        ↔ trimList t ≠ [] ∧ (trimList t).length ≤ 2000)
      ∧ exceptOk (validateText none) = false
      ∧ (∀ x, validateText (some t) = Except.ok x → x = trimList t) := by
  refine ⟨?_, rfl, ?_⟩
  · simp only [validateText]
    by_cases h0 : t = []
    · rw [if_pos h0, h0]
      simp [exceptOk, trimList]
    · rw [if_neg h0]
      by_cases h1 : (trimList t).length = 0
      · rw [if_pos h1]
        simp only [exceptOk, Bool.false_eq_true, false_iff]
        intro hcon
        exact hcon.1 (List.length_eq_zero.mp h1)
      · rw [if_neg h1]
        by_cases h2 : 2000 < (trimList t).length
        · rw [if_pos h2]
          simp only [exceptOk, Bool.false_eq_true, false_iff]
          intro hcon
          omega
        · rw [if_neg h2]
          simp only [exceptOk, true_iff]
          exact ⟨fun hc => h1 (by rw [hc]; rfl), by omega⟩
  · intro x hx
    simp only [validateText] at hx
    by_cases h0 : t = []
    · rw [if_pos h0] at hx
      exact absurd hx (by simp)
    · rw [if_neg h0] at hx
      by_cases h1 : (trimList t).length = 0
      · rw [if_pos h1] at hx
        exact absurd hx (by simp)
      · rw [if_neg h1] at hx
        by_cases h2 : 2000 < (trimList t).length
        · rw [if_pos h2] at hx
          exact absurd hx (by simp)
        · rw [if_neg h2] at hx
          exact (Except.ok.inj hx).symm

/-- C5, witness: a two-character text with a trailing space validates and
returns the trimmed single character. -/
theorem C5_witness :
    exceptOk (validateText (some ['a', ' '])) = true
      ∧ validateText (some ['a', ' ']) = Except.ok ['a'] := by
  refine ⟨(C5_validate_text ['a', ' ']).1.mpr (by decide), ?_⟩
  have h := (C5_validate_text ['a', ' ']).1.mpr (by decide)
  rcases hx : validateText (some ['a', ' ']) with e | x
  · rw [hx] at h
    simp [exceptOk] at h
  · have := (C5_validate_text ['a', ' ']).2.2 x hx
    rw [this]
    have htrim : trimList ['a', ' '] = ['a'] := by decide
    rw [htrim]

/-- C8: the physical-page placement applies one scale factor
`min(contentWidth / w, contentHeight / h)` to both axes, so the scaled
image keeps the aspect ratio w/h, fits inside the page content area, and
is centered there: left and right gaps are equal, as are top and bottom
gaps. -/
theorem C8_uniform_scale_centered (w h : ℚ) (hw : 0 < w) (hh : 0 < h) :
    (calculateImageDimensions w h).scale
        = min ((A4_WIDTH_POINTS - marginLeft - marginRight) / w)
            ((A4_HEIGHT_POINTS - marginTop - marginBottom) / h)
      ∧ (calculateImageDimensions w h).width
          = w * (calculateImageDimensions w h).scale
      ∧ (calculateImageDimensions w h).height
          = h * (calculateImageDimensions w h).scale
      ∧ 0 < (calculateImageDimensions w h).scale
      ∧ (calculateImageDimensions w h).width
            / (calculateImageDimensions w h).height = w / h
      ∧ (calculateImageDimensions w h).width
          ≤ A4_WIDTH_POINTS - marginLeft - marginRight
      ∧ (calculateImageDimensions w h).height
          ≤ A4_HEIGHT_POINTS - marginTop - marginBottom
      ∧ imageX (calculateImageDimensions w h) - marginLeft
          = (A4_WIDTH_POINTS - marginRight)
            - (imageX (calculateImageDimensions w h)
                + (calculateImageDimensions w h).width)
      ∧ imageY (calculateImageDimensions w h) - marginTop
          = (A4_HEIGHT_POINTS - marginBottom)
            - (imageY (calculateImageDimensions w h)
                + (calculateImageDimensions w h).height) := by
  have hW : (0 : ℚ) < A4_WIDTH_POINTS - marginLeft - marginRight := by
    norm_num [A4_WIDTH_POINTS, marginLeft, marginRight]
  have hH : (0 : ℚ) < A4_HEIGHT_POINTS - marginTop - marginBottom := by
    norm_num [A4_HEIGHT_POINTS, marginTop, marginBottom]
  have hs : 0 < (calculateImageDimensions w h).scale :=
    lt_min (div_pos hW hw) (div_pos hH hh)
  refine ⟨rfl, rfl, rfl, hs, ?_, ?_, ?_, ?_, ?_⟩
  · show w * (calculateImageDimensions w h).scale
        / (h * (calculateImageDimensions w h).scale) = w / h
    rw [mul_comm w _, mul_comm h _,
      mul_div_mul_left _ _ (ne_of_gt hs)]
  · show w * (calculateImageDimensions w h).scale
        ≤ A4_WIDTH_POINTS - marginLeft - marginRight
    calc w * (calculateImageDimensions w h).scale
        ≤ w * ((A4_WIDTH_POINTS - marginLeft - marginRight) / w) :=
          mul_le_mul_of_nonneg_left (min_le_left _ _) (le_of_lt hw)
      _ = A4_WIDTH_POINTS - marginLeft - marginRight := by
          field_simp
  · show h * (calculateImageDimensions w h).scale
        ≤ A4_HEIGHT_POINTS - marginTop - marginBottom
    calc h * (calculateImageDimensions w h).scale
        ≤ h * ((A4_HEIGHT_POINTS - marginTop - marginBottom) / h) :=
          mul_le_mul_of_nonneg_left (min_le_right _ _) (le_of_lt hh)
      _ = A4_HEIGHT_POINTS - marginTop - marginBottom := by
          field_simp
  · simp only [imageX]
    ring
  · simp only [imageY]
    ring

/-- C8, witness: the placement theorem instantiated on a 1000 by 700
bitmap. -/
theorem C8_witness :
    ((0 : ℚ) < 1000 ∧ (0 : ℚ) < 700)
      ∧ ((calculateImageDimensions 1000 700).scale
            = min ((A4_WIDTH_POINTS - marginLeft - marginRight) / 1000)
                ((A4_HEIGHT_POINTS - marginTop - marginBottom) / 700)
          ∧ (calculateImageDimensions 1000 700).width
              = 1000 * (calculateImageDimensions 1000 700).scale
          ∧ (calculateImageDimensions 1000 700).height
              = 700 * (calculateImageDimensions 1000 700).scale
          ∧ 0 < (calculateImageDimensions 1000 700).scale
          ∧ (calculateImageDimensions 1000 700).width
                / (calculateImageDimensions 1000 700).height = 1000 / 700
          ∧ (calculateImageDimensions 1000 700).width
              ≤ A4_WIDTH_POINTS - marginLeft - marginRight
          ∧ (calculateImageDimensions 1000 700).height
              ≤ A4_HEIGHT_POINTS - marginTop - marginBottom
          ∧ imageX (calculateImageDimensions 1000 700) - marginLeft
              = (A4_WIDTH_POINTS - marginRight)
                - (imageX (calculateImageDimensions 1000 700)
                    + (calculateImageDimensions 1000 700).width)
          ∧ imageY (calculateImageDimensions 1000 700) - marginTop
              = (A4_HEIGHT_POINTS - marginBottom)
                - (imageY (calculateImageDimensions 1000 700)
                    + (calculateImageDimensions 1000 700).height)) :=
  ⟨by norm_num,
    C8_uniform_scale_centered 1000 700 (by norm_num) (by norm_num)⟩

/-- C9, counterexample: on a one-character text in practice mode the
character loop runs and sets `ctx.globalAlpha = options.guideOpacity || 0.3`
with no clamping, so a supplied guideOpacity = 0.05 is used as-is for the
drawn character, not clamped to 0.1 as the claim states; the [0.1, 1.0]
clamp exists only in `validateOptions`, which the generation paths do not
invoke. -/
theorem C9_counterexample :
    (generateCopybook ['a'] "serif" (some 10) (some 10)
        { practiceMode := true, guideOpacity := some (1/20) }).charactersDrawn
        = 1
      ∧ (generateCopybook ['a'] "serif" (some 10) (some 10)
          { practiceMode := true, guideOpacity := some (1/20) }).opacityUsed
          = some (1/20)
      ∧ validGuideOpacity (some (1/20)) = 1/10
      ∧ (1/20 : ℚ) ≠ 1/10 := by
  refine ⟨by decide, ?_, ?_, by norm_num⟩
  · rw [generateCopybook_opacityUsed ['a'] "serif" (some 10) (some 10)
      { practiceMode := true, guideOpacity := some (1/20) } (by decide)]
    simp only [jsOrRat, if_true]
    norm_num
  · simp only [validGuideOpacity, jsOrRat]
    norm_num

/-- C9, amended: when practiceMode is on and at least one character is
drawn, the opacity actually used for drawing guide characters is the
supplied guideOpacity unchanged when it is truthy (nonzero), and the 0.3
fallback when it is absent or supplied as 0; out-of-range values are never
an error.  When practiceMode is off, or the stream is empty so no
character is drawn, no guide opacity is applied at all.  The clamp of
guideOpacity into [0.1, 1.0] exists only in `validateOptions`, which the
generation paths do not call. -/
theorem C9_guide_opacity (text : List Char) (fontType : String)
    (charsPerRow rowCount : Option Int) (v : ℚ) (hv : v ≠ 0)
    (htext : stripWS text ≠ []) :
    (generateCopybook text fontType charsPerRow rowCount
          { practiceMode := true, guideOpacity := some v }).opacityUsed
        = some v
      ∧ (generateCopybook text fontType charsPerRow rowCount
            { practiceMode := true, guideOpacity := none }).opacityUsed
          = some 0.3
      ∧ (generateCopybook text fontType charsPerRow rowCount
            { practiceMode := true, guideOpacity := some 0 }).opacityUsed
          = some 0.3
      ∧ (∀ b : Option ℚ, (generateCopybook text fontType charsPerRow rowCount
            { practiceMode := false, guideOpacity := b }).opacityUsed = none)
      ∧ (∀ b : Option ℚ, (generateCopybook [] fontType charsPerRow rowCount
            { practiceMode := true, guideOpacity := b }).opacityUsed = none)
      ∧ (1/10 : ℚ) ≤ validGuideOpacity (some v)
      ∧ validGuideOpacity (some v) ≤ 1 := by
  refine ⟨?_, ?_, ?_, ?_, ?_, ?_, ?_⟩
  · rw [generateCopybook_opacityUsed text fontType charsPerRow rowCount
      { practiceMode := true, guideOpacity := some v } htext]
    simp only [jsOrRat, if_true, if_neg hv]
  · rw [generateCopybook_opacityUsed text fontType charsPerRow rowCount
      { practiceMode := true, guideOpacity := none } htext]
    simp [jsOrRat]
  · rw [generateCopybook_opacityUsed text fontType charsPerRow rowCount
      { practiceMode := true, guideOpacity := some 0 } htext]
    simp [jsOrRat]
  · intro b
    rw [generateCopybook_opacityUsed text fontType charsPerRow rowCount
      { practiceMode := false, guideOpacity := b } htext]
    simp
  · intro b
    exact generateCopybook_opacityUsed_empty [] fontType charsPerRow rowCount
      { practiceMode := true, guideOpacity := b } rfl
  · simp only [validGuideOpacity]
    have h : (1/10 : ℚ) ≤ 0.1 := by norm_num
    exact le_trans h (le_max_left _ _)
  · simp only [validGuideOpacity]
    refine max_le (by norm_num) (le_trans (min_le_left _ _) (by norm_num))

/-- C9, witness: the opacity theorem instantiated at guideOpacity = 1/2 on
a one-character text. -/
theorem C9_witness :
    ((1/2 : ℚ) ≠ 0 ∧ stripWS ['a'] ≠ [])
      ∧ ((generateCopybook ['a'] "serif" (some 10) (some 10)
            { practiceMode := true, guideOpacity := some (1/2) }).opacityUsed
            = some (1/2)
          ∧ (generateCopybook ['a'] "serif" (some 10) (some 10)
              { practiceMode := true, guideOpacity := none }).opacityUsed
            = some 0.3
          ∧ (generateCopybook ['a'] "serif" (some 10) (some 10)
              { practiceMode := true, guideOpacity := some 0 }).opacityUsed
            = some 0.3
          ∧ (∀ b : Option ℚ, (generateCopybook ['a'] "serif" (some 10) (some 10)
              { practiceMode := false, guideOpacity := b }).opacityUsed = none)
          ∧ (∀ b : Option ℚ, (generateCopybook [] "serif" (some 10) (some 10)
              { practiceMode := true, guideOpacity := b }).opacityUsed = none)
          ∧ (1/10 : ℚ) ≤ validGuideOpacity (some (1/2))
          ∧ validGuideOpacity (some (1/2)) ≤ 1) :=
  ⟨⟨by norm_num, by decide⟩,
    C9_guide_opacity ['a'] "serif" (some 10) (some 10) (1/2) (by norm_num)
      (by decide)⟩
